import Mathlib

/-!
Verification of the sizing and recommendation engine of `app.py` (solar
rooftop / hybrid system sizer).  The engine's Python floats are modelled
as exact rational numbers (`ℚ`); Python's `round(x, 1)` (round to one
decimal place, ties to even) is modelled by `round1` below.  All other
definitions are transcribed directly from `app.py`, keeping the source
names where Lean allows.
-/

namespace SolarSizer

/-- Round a rational to the nearest integer, ties going to the even
integer.  This is the rounding rule of Python's built-in `round`. -/
def roundHalfEven (x : ℚ) : ℤ :=
  if x - ⌊x⌋ < 1/2 then ⌊x⌋
  else if 1/2 < x - ⌊x⌋ then ⌊x⌋ + 1
  else if ⌊x⌋ % 2 = 0 then ⌊x⌋ else ⌊x⌋ + 1

/-- Model of Python `round(x, 1)`: round to one decimal place. -/
def round1 (x : ℚ) : ℚ := (roundHalfEven (x * 10) : ℚ) / 10

/-! ### Section 2 of `app.py`: cost and tech constants -/

def DERATE_FACTOR : ℚ := 0.80

def PANEL_COST_PER_KW : ℚ := 45000

def BATTERY_COST_PER_KWH : ℚ := 13000

def SUBSIDY_FLAT_KW : ℚ := 3

def SUBSIDY_PER_KW_FIRST3 : ℚ := 26000

/-- The closed inverter-type enum: the keys of `INVERTER_COSTS`. -/
inductive InverterType
  | grid
  | hybrid
  | offgrid
deriving DecidableEq, Repr

/-- `INVERTER_COSTS = {"grid": 12_000, "hybrid": 20_000, "offgrid": 18_000}`. -/
def INVERTER_COSTS : InverterType → ℚ
  | .grid => 12000
  | .hybrid => 20000
  | .offgrid => 18000

/-- The fixed appliance kinds of `APPLIANCE_P_RATED` / `DEFAULT_DUTY_HOURS`
("AC 1.5 ton", "Fridge", "TV", "Fan", "Light (LED)", "Washing Machine",
"Laptop", "Monitor", "Other"). -/
inductive Appliance
  | ac15ton
  | fridge
  | tv
  | fan
  | ledLight
  | washingMachine
  | laptop
  | monitor
  | other
deriving DecidableEq, Repr

/-- Rated power in watts per appliance kind (`APPLIANCE_P_RATED`). -/
def APPLIANCE_P_RATED : Appliance → ℚ
  | .ac15ton => 1600
  | .fridge => 150
  | .tv => 120
  | .fan => 60
  | .ledLight => 15
  | .washingMachine => 500
  | .laptop => 60
  | .monitor => 30
  | .other => 100

/-- Default daily duty hours per appliance kind (`DEFAULT_DUTY_HOURS`). -/
def DEFAULT_DUTY_HOURS : Appliance → ℚ
  | .ac15ton => 6
  | .fridge => 24
  | .tv => 4
  | .fan => 8
  | .ledLight => 6
  | .washingMachine => 0.5
  | .laptop => 4
  | .monitor => 4
  | .other => 4

/-- The appliance kinds in the iteration order of the source dictionaries. -/
def applianceList : List Appliance :=
  [.ac15ton, .fridge, .tv, .fan, .ledLight, .washingMachine, .laptop, .monitor, .other]

/-- The load aggregation of the UI layer (`total_kwh` in `app.py`):
`sum(qty * APPLIANCE_P_RATED[appl] * DEFAULT_DUTY_HOURS[appl] / 1000 ...)`,
with one non-negative integer quantity per appliance kind. -/
def total_kwh (qty : Appliance → ℕ) : ℚ :=
  (applianceList.map fun a =>
    (qty a : ℚ) * APPLIANCE_P_RATED a * DEFAULT_DUTY_HOURS a / 1000).sum

/-! ### Section 1 of `app.py`: city-wise solar and tariff data -/

/-- One entry of `CITY_SOLAR_DATA`. -/
structure CityProfile where
  grid_tariff : ℚ
  export_rate : ℚ
  ghi : ℚ
deriving DecidableEq, Repr

/-- The `"default"` entry of `CITY_SOLAR_DATA`. -/
def defaultCityProfile : CityProfile := ⟨6.85, 3.90, 5.0⟩

/-- `CITY_SOLAR_DATA` as an association list, in source order. -/
def CITY_SOLAR_DATA : List (String × CityProfile) :=
  [("pune", ⟨6.85, 3.90, 5.5⟩),
   ("mumbai", ⟨6.85, 3.90, 5.0⟩),
   ("delhi", ⟨5.50, 5.50, 5.3⟩),
   ("bangalore", ⟨7.00, 3.82, 5.1⟩),
   ("hyderabad", ⟨6.65, 3.15, 5.4⟩),
   ("chennai", ⟨5.80, 3.15, 5.3⟩),
   ("kolkata", ⟨6.10, 3.15, 4.5⟩),
   ("jaipur", ⟨6.50, 3.10, 5.7⟩),
   ("ahmedabad", ⟨6.10, 2.25, 5.8⟩),
   ("surat", ⟨6.10, 2.25, 5.6⟩),
   ("coimbatore", ⟨5.80, 3.15, 5.2⟩),
   ("lucknow", ⟨7.10, 3.82, 5.2⟩),
   ("gurgaon", ⟨6.00, 5.50, 5.3⟩),
   ("vadodara", ⟨6.10, 2.25, 5.7⟩),
   ("nagpur", ⟨6.85, 3.90, 5.6⟩),
   ("visakhapatnam", ⟨5.80, 3.15, 5.1⟩),
   ("indore", ⟨7.00, 3.90, 5.5⟩),
   ("bhubaneswar", ⟨6.10, 3.90, 5.2⟩),
   ("varanasi", ⟨7.10, 3.82, 5.1⟩),
   ("default", defaultCityProfile)]

/-- The city lookup of the UI layer (`city_data` in `app.py`):
`CITY_SOLAR_DATA.get(city, CITY_SOLAR_DATA["default"])`.  The theorem for
claim C8 checks that looking up `"default"` indeed yields
`defaultCityProfile`, so the fallback below is exactly
`CITY_SOLAR_DATA["default"]`. -/
def city_data (key : String) : CityProfile :=
  match CITY_SOLAR_DATA.lookup key with
  | some p => p
  | none => defaultCityProfile

/-! ### The height-based panel lookup table and resolver -/

/-- One entry of `PANEL_BY_HEIGHT`.  The height range is kept as the raw
string of the source (for example `"3-15"`), parsed at call time exactly
as `recommend_panel_by_floor_height` does. -/
structure PanelBand where
  floor_height_m : String
  optimal_panel_type : String
  recommended_companies : List String
  typical_wattage_w : ℕ
  typical_dimensions_mm : String
deriving DecidableEq, Repr

def band0 : PanelBand :=
  ⟨"3-15", "Mono PERC / Bifacial", ["LONGi", "JA Solar", "Jinko"], 490,
   "2000 x 1134 x 32"⟩

def band1 : PanelBand :=
  ⟨"16-30", "Half-cut Mono PERC / TOPCon", ["Trina", "Jinko", "Canadian Solar"], 535,
   "2278 x 1134 x 35"⟩

def band2 : PanelBand :=
  ⟨"31-45", "TOPCon / HJT", ["LONGi", "JA Solar", "Trina"], 575,
   "2384 x 1096 x 35"⟩

def band3 : PanelBand :=
  ⟨"46-60", "HJT / Bifacial (reinforced)", ["LONGi", "JA Solar", "Canadian Solar"], 600,
   "2384 x 1134 x 35"⟩

def band4 : PanelBand :=
  ⟨"61-75", "HJT / CdTe Thin-film", ["First Solar", "Trina"], 565,
   "2200 x 1190 x 35"⟩

def band5 : PanelBand :=
  ⟨"76-90", "CdTe Thin-film / Reinforced HJT", ["First Solar", "LONGi"], 565,
   "2200 x 1190 x 38"⟩

/-- `PANEL_BY_HEIGHT`, in source order. -/
def PANEL_BY_HEIGHT : List PanelBand := [band0, band1, band2, band3, band4, band5]

/-- Split a character list at every `'-'`, modelling both
`re.split(r"-", s)` and `s.split('-')` of the source. -/
def splitDash : List Char → List (List Char)
  | [] => [[]]
  | c :: cs =>
    if c = '-' then [] :: splitDash cs
    else match splitDash cs with
      | [] => [[c]]
      | g :: gs => (c :: g) :: gs

/-- Model of Python `float` applied to one piece of a height-range
string, restricted to the unsigned decimal numerals that occur in the
configuration; any other piece is a `ValueError` (`none`). -/
def parseNum? (cs : List Char) : Option ℕ :=
  if cs = [] then none
  else if cs.all (fun c => c.isDigit) then
    some (cs.foldl (fun n c => 10 * n + (c.toNat - 48)) 0)
  else none

/-- Model of `lo, hi = map(float, re.split(r"-", rec["floor_height_m"]))`:
fails (`none`) unless the string splits into exactly two numerals. -/
def parseRange? (s : String) : Option (ℚ × ℚ) :=
  match (splitDash s.data).map parseNum? with
  | [some lo, some hi] => some ((lo : ℚ), (hi : ℚ))
  | _ => none

/-- The result record built at the end of
`recommend_panel_by_floor_height`. -/
structure PanelRecommendation where
  panel_type : String
  brands : List String
  wattage_w : ℕ
  size_mm : String
deriving DecidableEq, Repr

/-- `PanelRecommendation(selected["optimal_panel_type"], ...)`. -/
def toRecommendation (b : PanelBand) : PanelRecommendation :=
  ⟨b.optimal_panel_type, b.recommended_companies, b.typical_wattage_w,
   b.typical_dimensions_mm⟩

/-- The `for rec in PANEL_BY_HEIGHT` loop with its `break`:
`some (some b)` means the loop broke with `selected = b`; `some none`
means the loop fell through (the `else` of the `for` runs); `none` means
a range string failed to parse (a `ValueError`). -/
def scanBands (height_m : ℚ) : List PanelBand → Option (Option PanelBand)
  | [] => some none
  | b :: rest =>
    match parseRange? b.floor_height_m with
    | none => none
    | some (lo, hi) =>
      if lo ≤ height_m ∧ height_m ≤ hi then some (some b)
      else scanBands height_m rest

/-- `recommend_panel_by_floor_height` of `app.py`.  `none` models a
raised exception (empty table or an unparsable range string); with the
shipped `PANEL_BY_HEIGHT` the result is always `some`. -/
def recommend_panel_by_floor_height (height_m : ℚ) : Option PanelRecommendation :=
  match PANEL_BY_HEIGHT.head? with
  | none => none
  | some first =>
    match scanBands height_m PANEL_BY_HEIGHT with
    | none => none
    | some (some b) => some (toRecommendation b)
    | some none =>
      match PANEL_BY_HEIGHT.getLast? with
      | none => none
      | some lastBand =>
        match (splitDash lastBand.floor_height_m.data)[1]? with
        | none => none
        | some cs =>
          match parseNum? cs with
          | none => none
          | some hi =>
            some (toRecommendation (if (hi : ℚ) < height_m then lastBand else first))

/-! ### The sizing calculator -/

/-- The battery energy before rounding:
`daily_kwh * (outage_hours_week / 168) * 1.2`. -/
def battery_raw (outage_hours_week daily_kwh : ℚ) : ℚ :=
  daily_kwh * (outage_hours_week / 168) * 1.2

/-- `size_battery` of `app.py`. -/
def size_battery (outage_hours_week daily_kwh : ℚ) : ℚ :=
  round1 (battery_raw outage_hours_week daily_kwh)

/-- The PV capacity before rounding: `(daily_kwh / ghi) / DERATE_FACTOR`. -/
def pv_kw_raw (daily_kwh ghi : ℚ) : ℚ :=
  (daily_kwh / ghi) / DERATE_FACTOR

/-- The subsidy expression of `compute_design`:
`min(pv_kw, SUBSIDY_FLAT_KW) * SUBSIDY_PER_KW_FIRST3 / SUBSIDY_FLAT_KW`. -/
def subsidy (pv_kw : ℚ) : ℚ :=
  min pv_kw SUBSIDY_FLAT_KW * SUBSIDY_PER_KW_FIRST3 / SUBSIDY_FLAT_KW

/-- The `SolarDesign` dataclass of `app.py`. -/
structure SolarDesign where
  pv_kw : ℚ
  pv_cost : ℚ
  roof_area_m2 : ℚ
  inverter_kw : ℚ
  inverter_type : InverterType
  inverter_cost : ℚ
  battery_kwh : ℚ
  battery_cost : ℚ
  payback_years : ℚ
deriving DecidableEq, Repr

/-- `compute_design` of `app.py`.  The Python guard
`round(...) if annual_savings else 0` is the test `annual_savings ≠ 0`. -/
def compute_design (daily_kwh ghi outage_hours grid_tariff : ℚ)
    (inverter_type : InverterType) : SolarDesign :=
  let pv_kw := round1 (pv_kw_raw daily_kwh ghi)
  let pv_cost := pv_kw * PANEL_COST_PER_KW - subsidy pv_kw
  let inv_kw := pv_kw
  let inv_cost := inv_kw * INVERTER_COSTS inverter_type
  let batt_kwh := size_battery outage_hours daily_kwh
  let batt_cost := batt_kwh * BATTERY_COST_PER_KWH
  let annual_savings := daily_kwh * 365 * grid_tariff
  let payback :=
    if annual_savings ≠ 0 then round1 ((pv_cost + inv_cost + batt_cost) / annual_savings)
    else 0
  ⟨pv_kw, pv_cost, pv_kw * 7.0, inv_kw, inverter_type, inv_cost, batt_kwh,
   batt_cost, payback⟩

/-- The load input of the concrete scenario of the spec:
one "AC 1.5 ton" and one "Fridge", everything else zero. -/
def acFridgeLoad : Appliance → ℕ
  | .ac15ton => 1
  | .fridge => 1
  | _ => 0

/-! ### Helper lemmas -/

/-- Evaluation of the band scan over the shipped `PANEL_BY_HEIGHT`. -/
theorem scanBands_full (h : ℚ) : scanBands h PANEL_BY_HEIGHT =
    (if 3 ≤ h ∧ h ≤ 15 then some (some band0)
     else if 16 ≤ h ∧ h ≤ 30 then some (some band1)
     else if 31 ≤ h ∧ h ≤ 45 then some (some band2)
     else if 46 ≤ h ∧ h ≤ 60 then some (some band3)
     else if 61 ≤ h ∧ h ≤ 75 then some (some band4)
     else if 76 ≤ h ∧ h ≤ 90 then some (some band5)
     else some none) := by
  have p0 : parseRange? band0.floor_height_m = some (3, 15) := by decide
  have p1 : parseRange? band1.floor_height_m = some (16, 30) := by decide
  have p2 : parseRange? band2.floor_height_m = some (31, 45) := by decide
  have p3 : parseRange? band3.floor_height_m = some (46, 60) := by decide
  have p4 : parseRange? band4.floor_height_m = some (61, 75) := by decide
  have p5 : parseRange? band5.floor_height_m = some (76, 90) := by decide
  simp only [PANEL_BY_HEIGHT, scanBands, p0, p1, p2, p3, p4, p5]

/-- Closed form of the panel resolver over the shipped configuration. -/
theorem recommend_eq (h : ℚ) : recommend_panel_by_floor_height h =
    some (toRecommendation
      (if 3 ≤ h ∧ h ≤ 15 then band0
       else if 16 ≤ h ∧ h ≤ 30 then band1
       else if 31 ≤ h ∧ h ≤ 45 then band2
       else if 46 ≤ h ∧ h ≤ 60 then band3
       else if 61 ≤ h ∧ h ≤ 75 then band4
       else if 76 ≤ h ∧ h ≤ 90 then band5
       else if 90 < h then band5 else band0)) := by
  have hd : PANEL_BY_HEIGHT.head? = some band0 := rfl
  have lst : PANEL_BY_HEIGHT.getLast? = some band5 := rfl
  have sp : (splitDash band5.floor_height_m.data)[1]? = some (['9', '0']) := by decide
  have pn : parseNum? (['9', '0']) = some 90 := by decide
  unfold recommend_panel_by_floor_height
  rw [scanBands_full]
  split_ifs with h1 h2 h3 h4 h5 h6 h7 <;>
    simp only [hd, lst, sp, pn, Nat.cast_ofNat] <;>
    first
      | rfl
      | rw [if_pos h7]
      | rw [if_neg h7]

/-- Field-wise reading of `compute_design`. -/
theorem compute_design_pv_kw (d g o t : ℚ) (it : InverterType) :
    (compute_design d g o t it).pv_kw = round1 (pv_kw_raw d g) := rfl

theorem compute_design_pv_cost (d g o t : ℚ) (it : InverterType) :
    (compute_design d g o t it).pv_cost
      = round1 (pv_kw_raw d g) * PANEL_COST_PER_KW - subsidy (round1 (pv_kw_raw d g)) := rfl

theorem compute_design_inverter_cost (d g o t : ℚ) (it : InverterType) :
    (compute_design d g o t it).inverter_cost
      = round1 (pv_kw_raw d g) * INVERTER_COSTS it := rfl

theorem compute_design_battery_kwh (d g o t : ℚ) (it : InverterType) :
    (compute_design d g o t it).battery_kwh = size_battery o d := rfl

theorem compute_design_battery_cost (d g o t : ℚ) (it : InverterType) :
    (compute_design d g o t it).battery_cost = size_battery o d * BATTERY_COST_PER_KWH := rfl

theorem compute_design_payback (d g o t : ℚ) (it : InverterType) :
    (compute_design d g o t it).payback_years
      = (if d * 365 * t ≠ 0 then
          round1 (((compute_design d g o t it).pv_cost
            + (compute_design d g o t it).inverter_cost
            + (compute_design d g o t it).battery_cost) / (d * 365 * t))
         else 0) := rfl

/-- `round1` of zero is zero. -/
theorem round1_zero : round1 0 = 0 := by
  norm_num [round1, roundHalfEven]

/-! ### Claim theorems -/

/-- C3: for every `outageHoursPerWeek` in `[0, 168]` and every
`dailyEnergyKwh ≥ 0`, `size_battery` equals
`dailyEnergyKwh * (outageHoursPerWeek / 168) * 1.2` rounded to one
decimal place; in particular it is `0` at outage `0` and
`round1 (x * 1.2)` at outage `168`. -/
theorem battery_capacity_formula (outage daily : ℚ)
    (h1 : 0 ≤ outage) (h2 : outage ≤ 168) (h3 : 0 ≤ daily) :
    size_battery outage daily = round1 (daily * (outage / 168) * 1.2) ∧
    size_battery 0 daily = 0 ∧
    size_battery 168 daily = round1 (daily * 1.2) := by
  refine ⟨rfl, ?_, ?_⟩
  · have hz : battery_raw 0 daily = 0 := by
      simp [battery_raw]
    rw [size_battery, hz, round1_zero]
  · have ho : battery_raw 168 daily = daily * 1.2 := by
      rw [battery_raw]
      norm_num
    rw [size_battery, ho]

/-- Witness for `battery_capacity_formula` at outage 4 h/week and
10 kWh/day. -/
theorem battery_capacity_formula_witness :
    (0 : ℚ) ≤ 4 ∧ (4 : ℚ) ≤ 168 ∧ (0 : ℚ) ≤ 10 ∧
    (size_battery 4 10 = round1 (10 * (4 / 168) * 1.2) ∧
     size_battery 0 10 = 0 ∧
     size_battery 168 10 = round1 (10 * 1.2)) :=
  ⟨by decide, by decide, by decide,
   battery_capacity_formula 4 10 (by decide) (by decide) (by decide)⟩

/-- C6: the subsidy of `compute_design` equals
`min(pvKw, 3) * 26000 / 3`; it is linear (`pvKw * 26000 / 3`) up to the
3 kW threshold and constantly 26000 from 3 kW on, and `pv_cost` is the
gross panel cost minus exactly this subsidy. -/
theorem subsidy_tiered (d g o t pv : ℚ) (it : InverterType) :
    subsidy pv = min pv SUBSIDY_FLAT_KW * SUBSIDY_PER_KW_FIRST3 / SUBSIDY_FLAT_KW ∧
    (pv ≤ 3 → subsidy pv = pv * 26000 / 3) ∧
    (3 ≤ pv → subsidy pv = 26000) ∧
    (compute_design d g o t it).pv_cost
      = (compute_design d g o t it).pv_kw * PANEL_COST_PER_KW
        - subsidy (compute_design d g o t it).pv_kw := by
  refine ⟨rfl, ?_, ?_, rfl⟩
  · intro hle
    rw [subsidy, SUBSIDY_FLAT_KW, SUBSIDY_PER_KW_FIRST3, min_eq_left hle]
  · intro hge
    rw [subsidy, SUBSIDY_FLAT_KW, SUBSIDY_PER_KW_FIRST3, min_eq_right hge]
    norm_num

/-- Witness for `subsidy_tiered`: the linear tier at 2 kWp and the flat
tier at 5 kWp. -/
theorem subsidy_tiered_witness :
    ((2 : ℚ) ≤ 3 ∧ subsidy 2 = 2 * 26000 / 3) ∧
    ((3 : ℚ) ≤ 5 ∧ subsidy 5 = 26000) :=
  ⟨⟨by decide, (subsidy_tiered 0 1 0 1 2 .grid).2.1 (by decide)⟩,
   ⟨by decide, (subsidy_tiered 0 1 0 1 5 .grid).2.2.1 (by decide)⟩⟩

/-- C8: for every string key the city lookup returns the stored profile
when the key is present and the `"default"` profile when it is absent;
it is a total function and the `"default"` key is indeed stored with
the fallback profile. -/
theorem city_lookup_total (key : String) :
    (∀ p, CITY_SOLAR_DATA.lookup key = some p → city_data key = p) ∧
    (CITY_SOLAR_DATA.lookup key = none → city_data key = defaultCityProfile) ∧
    CITY_SOLAR_DATA.lookup "default" = some defaultCityProfile := by
  refine ⟨?_, ?_, rfl⟩
  · intro p hp
    rw [city_data, hp]
  · intro hn
    rw [city_data, hn]

/-- Witness for `city_lookup_total`: a stored key (`"pune"`) and an
absent key (`"gotham"`). -/
theorem city_lookup_total_witness :
    CITY_SOLAR_DATA.lookup "pune" = some ⟨6.85, 3.90, 5.5⟩ ∧
    city_data "pune" = ⟨6.85, 3.90, 5.5⟩ ∧
    CITY_SOLAR_DATA.lookup "gotham" = none ∧
    city_data "gotham" = defaultCityProfile :=
  ⟨rfl, (city_lookup_total "pune").1 ⟨6.85, 3.90, 5.5⟩ rfl,
   rfl, (city_lookup_total "gotham").2.1 rfl⟩

/-- C9: over the shipped `PANEL_BY_HEIGHT` the panel resolver is total
on heights `≥ 0`: it always returns a recommendation (never `none`,
i.e. no exception). -/
theorem recommend_total (h : ℚ) (hh : 0 ≤ h) :
    ∃ r, recommend_panel_by_floor_height h = some r :=
  ⟨_, recommend_eq h⟩

/-- Witness for `recommend_total` at height 10 m. -/
theorem recommend_total_witness :
    (0 : ℚ) ≤ 10 ∧ ∃ r, recommend_panel_by_floor_height 10 = some r :=
  ⟨by decide, recommend_total 10 (by decide)⟩

/-- C2: the resolver returns the first band whose inclusive range
contains the height; above the last band's upper bound it returns the
last band's spec, and below the first band's lower bound it returns the
first band's spec.  Concretely, height 20 resolves to the "16-30"
band (535 W) and height 200 to the last band. -/
theorem recommend_band_policy (h : ℚ) :
    (3 ≤ h ∧ h ≤ 15 → recommend_panel_by_floor_height h = some (toRecommendation band0)) ∧
    (16 ≤ h ∧ h ≤ 30 → recommend_panel_by_floor_height h = some (toRecommendation band1)) ∧
    (31 ≤ h ∧ h ≤ 45 → recommend_panel_by_floor_height h = some (toRecommendation band2)) ∧
    (46 ≤ h ∧ h ≤ 60 → recommend_panel_by_floor_height h = some (toRecommendation band3)) ∧
    (61 ≤ h ∧ h ≤ 75 → recommend_panel_by_floor_height h = some (toRecommendation band4)) ∧
    (76 ≤ h ∧ h ≤ 90 → recommend_panel_by_floor_height h = some (toRecommendation band5)) ∧
    (90 < h → recommend_panel_by_floor_height h = some (toRecommendation band5)) ∧
    (h < 3 → recommend_panel_by_floor_height h = some (toRecommendation band0)) ∧
    recommend_panel_by_floor_height 20 = some (toRecommendation band1) ∧
    band1.typical_wattage_w = 535 ∧
    recommend_panel_by_floor_height 200 = some (toRecommendation band5) := by
  refine ⟨?_, ?_, ?_, ?_, ?_, ?_, ?_, ?_, ?_, rfl, ?_⟩
  · rintro ⟨ha, hb⟩
    rw [recommend_eq, if_pos ⟨ha, hb⟩]
  · rintro ⟨ha, hb⟩
    rw [recommend_eq, if_neg (by rintro ⟨_, hc⟩; linarith), if_pos ⟨ha, hb⟩]
  · rintro ⟨ha, hb⟩
    rw [recommend_eq, if_neg (by rintro ⟨_, hc⟩; linarith),
      if_neg (by rintro ⟨_, hc⟩; linarith), if_pos ⟨ha, hb⟩]
  · rintro ⟨ha, hb⟩
    rw [recommend_eq, if_neg (by rintro ⟨_, hc⟩; linarith),
      if_neg (by rintro ⟨_, hc⟩; linarith), if_neg (by rintro ⟨_, hc⟩; linarith),
      if_pos ⟨ha, hb⟩]
  · rintro ⟨ha, hb⟩
    rw [recommend_eq, if_neg (by rintro ⟨_, hc⟩; linarith),
      if_neg (by rintro ⟨_, hc⟩; linarith), if_neg (by rintro ⟨_, hc⟩; linarith),
      if_neg (by rintro ⟨_, hc⟩; linarith), if_pos ⟨ha, hb⟩]
  · rintro ⟨ha, hb⟩
    rw [recommend_eq, if_neg (by rintro ⟨_, hc⟩; linarith),
      if_neg (by rintro ⟨_, hc⟩; linarith), if_neg (by rintro ⟨_, hc⟩; linarith),
      if_neg (by rintro ⟨_, hc⟩; linarith), if_neg (by rintro ⟨_, hc⟩; linarith),
      if_pos ⟨ha, hb⟩]
  · intro h90
    rw [recommend_eq, if_neg (by rintro ⟨_, hc⟩; linarith),
      if_neg (by rintro ⟨_, hc⟩; linarith), if_neg (by rintro ⟨_, hc⟩; linarith),
      if_neg (by rintro ⟨_, hc⟩; linarith), if_neg (by rintro ⟨_, hc⟩; linarith),
      if_neg (by rintro ⟨_, hc⟩; linarith), if_pos h90]
  · intro h3
    rw [recommend_eq, if_neg (by rintro ⟨hc, _⟩; linarith),
      if_neg (by rintro ⟨hc, _⟩; linarith), if_neg (by rintro ⟨hc, _⟩; linarith),
      if_neg (by rintro ⟨hc, _⟩; linarith), if_neg (by rintro ⟨hc, _⟩; linarith),
      if_neg (by rintro ⟨hc, _⟩; linarith), if_neg (by linarith)]
  · rw [recommend_eq]
    norm_num
  · rw [recommend_eq]
    norm_num

/-- Witness for `recommend_band_policy`: height 20 m lies in the
"16-30" band and resolves to its spec. -/
theorem recommend_band_policy_witness :
    ((16 : ℚ) ≤ 20 ∧ (20 : ℚ) ≤ 30) ∧
    recommend_panel_by_floor_height 20 = some (toRecommendation band1) :=
  ⟨⟨by decide, by decide⟩, (recommend_band_policy 20).2.1 ⟨by decide, by decide⟩⟩

/-- C10: every height strictly inside a gap between two consecutive
shipped bands (15-16, 30-31, 45-46, 60-61, 75-76) resolves to the FIRST
band's spec; that spec differs from the specs of the bands adjacent to
the 30-31 gap. -/
theorem gap_heights_resolve_to_first_band (h : ℚ) :
    (15 < h → h < 16 → recommend_panel_by_floor_height h = some (toRecommendation band0)) ∧
    (30 < h → h < 31 → recommend_panel_by_floor_height h = some (toRecommendation band0)) ∧
    (45 < h → h < 46 → recommend_panel_by_floor_height h = some (toRecommendation band0)) ∧
    (60 < h → h < 61 → recommend_panel_by_floor_height h = some (toRecommendation band0)) ∧
    (75 < h → h < 76 → recommend_panel_by_floor_height h = some (toRecommendation band0)) ∧
    toRecommendation band0 ≠ toRecommendation band1 ∧
    toRecommendation band0 ≠ toRecommendation band2 := by
  refine ⟨?_, ?_, ?_, ?_, ?_, by decide, by decide⟩ <;>
    (intro ha hb
     rw [recommend_eq, if_neg (by rintro ⟨hc, hd⟩; linarith),
       if_neg (by rintro ⟨hc, hd⟩; linarith), if_neg (by rintro ⟨hc, hd⟩; linarith),
       if_neg (by rintro ⟨hc, hd⟩; linarith), if_neg (by rintro ⟨hc, hd⟩; linarith),
       if_neg (by rintro ⟨hc, hd⟩; linarith), if_neg (by linarith)])

/-- Witness for `gap_heights_resolve_to_first_band` at the gap height
15.5 m. -/
theorem gap_heights_witness :
    (15 : ℚ) < 31/2 ∧ (31/2 : ℚ) < 16 ∧
    recommend_panel_by_floor_height (31/2) = some (toRecommendation band0) :=
  ⟨by norm_num, by norm_num,
   (gap_heights_resolve_to_first_band (31/2)).1 (by norm_num) (by norm_num)⟩

/-- C7: the load aggregation is the sum over appliance kinds of
`quantity * ratedPowerWatts * defaultDutyHoursPerDay / 1000`, is affine
in each single quantity with slope `ratedPowerWatts * dutyHours / 1000`,
and never decreases when one quantity increases. -/
theorem load_aggregation_linear_monotone (qty : Appliance → ℕ) :
    total_kwh qty = (applianceList.map fun a =>
        (qty a : ℚ) * APPLIANCE_P_RATED a * DEFAULT_DUTY_HOURS a / 1000).sum ∧
    (∀ a n, total_kwh (Function.update qty a n)
        = total_kwh qty
          + ((n : ℚ) - (qty a : ℚ)) * (APPLIANCE_P_RATED a * DEFAULT_DUTY_HOURS a / 1000)) ∧
    (∀ a n, qty a ≤ n → total_kwh qty ≤ total_kwh (Function.update qty a n)) := by
  have rate_nonneg : ∀ a : Appliance,
      0 ≤ APPLIANCE_P_RATED a * DEFAULT_DUTY_HOURS a / 1000 := by
    intro a
    cases a <;> norm_num [APPLIANCE_P_RATED, DEFAULT_DUTY_HOURS]
  have lin : ∀ a n, total_kwh (Function.update qty a n)
      = total_kwh qty
        + ((n : ℚ) - (qty a : ℚ)) * (APPLIANCE_P_RATED a * DEFAULT_DUTY_HOURS a / 1000) := by
    intro a n
    cases a <;>
      (simp [total_kwh, applianceList, Function.update_apply,
        APPLIANCE_P_RATED, DEFAULT_DUTY_HOURS]
       ring)
  refine ⟨rfl, lin, ?_⟩
  intro a n hle
  rw [lin a n]
  have h1 : (0 : ℚ) ≤ (n : ℚ) - (qty a : ℚ) := sub_nonneg.mpr (by exact_mod_cast hle)
  have h2 := mul_nonneg h1 (rate_nonneg a)
  linarith

/-- Witness for `load_aggregation_linear_monotone`: raising the AC count
of the reference load from 1 to 3 does not decrease the total. -/
theorem load_aggregation_witness :
    acFridgeLoad Appliance.ac15ton ≤ 3 ∧
    total_kwh acFridgeLoad ≤ total_kwh (Function.update acFridgeLoad Appliance.ac15ton 3) :=
  ⟨by decide,
   (load_aggregation_linear_monotone acFridgeLoad).2.2 Appliance.ac15ton 3 (by decide)⟩

/-- C4: when the annual savings `dailyEnergyKwh * 365 * gridTariff` is
nonzero, the payback field is the rounded ratio of total capital cost to
annual savings; when it is zero the payback field is the sentinel 0 and
no error occurs. -/
theorem payback_sentinel (d g o t : ℚ) (it : InverterType) :
    (d * 365 * t ≠ 0 → (compute_design d g o t it).payback_years
        = round1 (((compute_design d g o t it).pv_cost
            + (compute_design d g o t it).inverter_cost
            + (compute_design d g o t it).battery_cost) / (d * 365 * t))) ∧
    (d * 365 * t = 0 → (compute_design d g o t it).payback_years = 0) := by
  constructor
  · intro hne
    rw [compute_design_payback, if_pos hne]
  · intro heq
    rw [compute_design_payback, if_neg (fun hne => hne heq)]

/-- Witness for `payback_sentinel`: nonzero savings at 1 kWh/day and
tariff 1, zero savings at 0 kWh/day. -/
theorem payback_sentinel_witness :
    ((1 : ℚ) * 365 * 1 ≠ 0 ∧ (compute_design 1 1 0 1 .grid).payback_years
        = round1 (((compute_design 1 1 0 1 .grid).pv_cost
            + (compute_design 1 1 0 1 .grid).inverter_cost
            + (compute_design 1 1 0 1 .grid).battery_cost) / ((1 : ℚ) * 365 * 1))) ∧
    ((0 : ℚ) * 365 * 1 = 0 ∧ (compute_design 0 1 0 1 .grid).payback_years = 0) := by
  have h1 : (1 : ℚ) * 365 * 1 ≠ 0 := by simp
  have h0 : (0 : ℚ) * 365 * 1 = 0 := by simp
  exact ⟨⟨h1, (payback_sentinel 1 1 0 1 .grid).1 h1⟩,
         ⟨h0, (payback_sentinel 0 1 0 1 .grid).2 h0⟩⟩

/-- C1: with loads {AC 1.5 ton: 1, Fridge: 1} and the reference
appliance profiles, the daily energy is 13.2 kWh/day, and
`compute_design` at irradiance 5.5 yields PV capacity 3.0 kWp, subsidy
26000 and PV cost 109000 (independently of outage, tariff and inverter
type). -/
theorem concrete_scenario_c1 (outage tariff : ℚ) (it : InverterType) :
    total_kwh acFridgeLoad = 13.2 ∧
    (compute_design (total_kwh acFridgeLoad) 5.5 outage tariff it).pv_kw = 3 ∧
    subsidy (compute_design (total_kwh acFridgeLoad) 5.5 outage tariff it).pv_kw = 26000 ∧
    (compute_design (total_kwh acFridgeLoad) 5.5 outage tariff it).pv_cost = 109000 := by
  have ht : total_kwh acFridgeLoad = 13.2 := by
    norm_num [total_kwh, applianceList, acFridgeLoad, APPLIANCE_P_RATED, DEFAULT_DUTY_HOURS]
  have hpv : round1 (pv_kw_raw (13.2 : ℚ) 5.5) = 3 := by
    norm_num [round1, roundHalfEven, pv_kw_raw, DERATE_FACTOR]
  have hsub : subsidy 3 = 26000 := by
    norm_num [subsidy, SUBSIDY_FLAT_KW, SUBSIDY_PER_KW_FIRST3]
  refine ⟨ht, ?_, ?_, ?_⟩
  · rw [compute_design_pv_kw, ht, hpv]
  · rw [compute_design_pv_kw, ht, hpv, hsub]
  · rw [compute_design_pv_cost, ht, hpv, hsub, PANEL_COST_PER_KW]
    norm_num

/-- C5 fails as stated: at dailyEnergyKwh = 0.272 (= 34/125),
irradiance 1, outage 168 h/week, tariff 1, doubling the daily energy
does NOT double the reported (rounded) PV capacity or battery capacity:
the PV capacity goes from 0.3 to 0.7, not 0.6. -/
theorem scaling_counterexample :
    ¬ ((compute_design (2 * (34/125)) 1 168 1 InverterType.grid).pv_kw
         = 2 * (compute_design (34/125) 1 168 1 InverterType.grid).pv_kw ∧
       (compute_design (2 * (34/125)) 1 168 1 InverterType.grid).battery_kwh
         = 2 * (compute_design (34/125) 1 168 1 InverterType.grid).battery_kwh) := by
  have e1 : (compute_design (2 * (34/125)) 1 168 1 InverterType.grid).pv_kw = 7/10 := by
    rw [compute_design_pv_kw]
    norm_num [round1, roundHalfEven, pv_kw_raw, DERATE_FACTOR]
  have e2 : (compute_design (34/125) 1 168 1 InverterType.grid).pv_kw = 3/10 := by
    rw [compute_design_pv_kw]
    norm_num [round1, roundHalfEven, pv_kw_raw, DERATE_FACTOR]
  rintro ⟨hc, -⟩
  rw [e1, e2] at hc
  norm_num at hc

/-- C5 amended: for every fixed irradiance, outage hours, tariff and
inverter type, doubling `dailyEnergyKwh ≥ 0` doubles the PV capacity
before rounding (`dailyEnergyKwh / irradiance / 0.80`) and the battery
energy before rounding; the reported capacities are the one-decimal
roundings of these values and need not double exactly. -/
theorem scaling_prerounding (daily ghi outage tariff : ℚ) (it : InverterType)
    (h0 : 0 ≤ daily) :
    (compute_design (2 * daily) ghi outage tariff it).pv_kw
      = round1 (pv_kw_raw (2 * daily) ghi) ∧
    pv_kw_raw (2 * daily) ghi = 2 * pv_kw_raw daily ghi ∧
    (compute_design (2 * daily) ghi outage tariff it).battery_kwh
      = round1 (battery_raw outage (2 * daily)) ∧
    battery_raw outage (2 * daily) = 2 * battery_raw outage daily := by
  refine ⟨rfl, ?_, rfl, ?_⟩
  · unfold pv_kw_raw
    ring
  · unfold battery_raw
    ring

/-- Witness for `scaling_prerounding` at daily 1 kWh, irradiance 2,
outage 168 h/week, tariff 1, grid inverter. -/
theorem scaling_prerounding_witness :
    (0 : ℚ) ≤ 1 ∧
    ((compute_design (2 * 1) 2 168 1 InverterType.grid).pv_kw
       = round1 (pv_kw_raw (2 * 1) 2) ∧
     pv_kw_raw (2 * 1) 2 = 2 * pv_kw_raw 1 2 ∧
     (compute_design (2 * 1) 2 168 1 InverterType.grid).battery_kwh
       = round1 (battery_raw 168 (2 * 1)) ∧
     battery_raw 168 (2 * 1) = 2 * battery_raw 168 1) :=
  ⟨by decide, scaling_prerounding 1 2 168 1 InverterType.grid (by decide)⟩

end SolarSizer
